import Mathlib

set_option linter.unusedVariables false

/-!
Shallow embedding of pr-actions.ts from the better-hub repository.

The file exports server actions that forward pull-request operations to a
remote hosting API and then invalidate cached views, plus a contributor
dossier assembler.  Remote calls are modelled by outcome parameters: every
awaited call is represented by a value of type RemoteOutcome describing
what the remote API did (returned a value, or threw an exception carrying a
message).  Cache invalidation and path revalidation are modelled as an
explicit trace of CacheEffect values returned alongside the result, in the
order they are performed.  Request payloads sent to the remote API are not
observable in this model except where a claim depends on them (the spliced
file content in commitSuggestion).  Base64 transport encoding at the I/O
boundary is abstracted away: outcomes carry decoded UTF-8 strings.
-/

/-- Outcome of one awaited remote call: either a returned value or a thrown
exception, modelled by its message string. -/
inductive RemoteOutcome (α : Type) where
  | ok (value : α)
  | thrown (msg : String)
deriving DecidableEq

/-- Sequencing of remote calls: a thrown exception propagates, as an awaited
rejection does. -/
def RemoteOutcome.bind {α β : Type} :
    RemoteOutcome α → (α → RemoteOutcome β) → RemoteOutcome β
  | .ok v, f => f v
  | .thrown m, _ => .thrown m

/-- Modelled from the spec: getErrorMessage is imported from a utils module
that is not among the sources; it extracts a human-readable message from a
thrown value.  Exceptions are modelled by their message string, so the
extraction is the identity. -/
def getErrorMessage (e : String) : String := e

/-- JavaScript boolean-or on strings: the empty string is falsy, so
`a || b` yields b exactly when a is empty. -/
def jsOrElse (s fallback : String) : String :=
  if s = "" then fallback else s

/-- The toLowerCase string operation, modelled character by character on
the underlying character list. -/
def lowercase (s : String) : String := String.mk (s.data.map Char.toLower)

/-- Splitting a character list on a separator character, as the string
split operation with a one-character separator does: the result always has
one more element than there are separators, and the empty list splits to
one empty string. -/
def splitCharList (c : Char) : List Char → List String
  | [] => [""]
  | x :: xs =>
    let rest := splitCharList c xs
    if x = c then "" :: rest
    else
      match rest with
      | [] => [String.mk [x]]
      | r :: rs => String.mk (x :: r.data) :: rs

/-- The split operation on the newline character used by commitSuggestion
to turn file content into its line list. -/
def splitOnNewline (s : String) : List String := splitCharList (Char.ofNat 10) s.data

/-- Joining a line list with newline, as the array join operation does. -/
def joinLines : List String → String
  | [] => ""
  | [x] => x
  | x :: xs => x ++ "\n" ++ joinLines xs

/-- The three cache scopes a PR mutation may revalidate
(type PRMutationScope in the source). -/
inductive PRMutationScope where
  | detail
  | list
  | layout
deriving DecidableEq

/-- The PR_ACTION_SCOPES record: which scopes each named action revalidates.
Actions absent from the record map to none (the JavaScript record lookup
yields undefined). -/
def PR_ACTION_SCOPES : String → Option (List PRMutationScope)
  | "merge" => some [.detail, .list, .layout]
  | "close" => some [.detail, .list, .layout]
  | "reopen" => some [.detail, .list, .layout]
  | "rename" => some [.detail, .list]
  | "updateBase" => some [.detail, .list]
  | "review" => some [.detail]
  | "comment" => some [.detail]
  | "reviewComment" => some [.detail]
  | "suggestion" => some [.detail]
  | "fileCommit" => some [.detail]
  | "resolveThread" => some [.detail]
  | "unresolveThread" => some [.detail]
  | "conflictResolution" => some [.detail, .list]
  | _ => none

/-- One cache-invalidation side effect: the invalidatePullRequestCache call,
a revalidatePath call, or a revalidatePath call with the "layout" type. -/
inductive CacheEffect where
  | invalidatePullRequestCache (owner repo : String) (pullNumber : Nat)
  | revalidatePath (path : String)
  | revalidatePathLayout (path : String)
deriving DecidableEq

/-- revalidateAfterPRMutation: looks the action up in PR_ACTION_SCOPES
(defaulting to the detail scope alone), always invalidates the pull-request
cache first, then revalidates the detail page, the pulls list and the
repository layout according to the scopes found. -/
def revalidateAfterPRMutation (owner repo : String) (pullNumber : Nat)
    (action : String) : List CacheEffect :=
  let scopes := (PR_ACTION_SCOPES action).getD [.detail]
  [CacheEffect.invalidatePullRequestCache owner repo pullNumber]
    ++ (if scopes.contains .detail then
          [CacheEffect.revalidatePath s!"/repos/{owner}/{repo}/pulls/{pullNumber}"]
        else [])
    ++ (if scopes.contains .list then
          [CacheEffect.revalidatePath s!"/repos/{owner}/{repo}/pulls"]
        else [])
    ++ (if scopes.contains .layout then
          [CacheEffect.revalidatePathLayout s!"/repos/{owner}/{repo}"]
        else [])

/-- Result of a mutation operation: either an error object with a message,
or a success object, optionally carrying a commit or file sha
(newSha in commitFileEditOnPR, mergeCommitSha in
commitMergeConflictResolution). -/
inductive MutationResult where
  | error (msg : String)
  | success (sha : Option String)
deriving DecidableEq

/-- Whether a result is the error shape. -/
def MutationResult.isErr : MutationResult → Bool
  | .error _ => true
  | .success _ => false

/-- A branch object returned by getRepoBranches. -/
structure Branch where
  name : String
deriving DecidableEq

/-- fetchBranchNames: maps the branches (or the empty list when the call
returns a nullish value) to their names; any thrown exception is caught and
yields the empty list. -/
def fetchBranchNames (call : RemoteOutcome (Option (List Branch)))
    (owner repo : String) : List String :=
  match call with
  | .ok branches => (branches.getD []).map (fun b => b.name)
  | .thrown _ => []

/-- updatePRBaseBranch: requires an authenticated client, performs the
pulls.update call, revalidates with the updateBase action on success, and
converts a thrown exception into an error result. -/
def updatePRBaseBranch (octokit : Option Unit) (call : RemoteOutcome Unit)
    (owner repo : String) (pullNumber : Nat) (base : String) :
    MutationResult × List CacheEffect :=
  match octokit with
  | none => (.error "Not authenticated", [])
  | some _ =>
    match call with
    | .thrown e =>
      (.error (jsOrElse (getErrorMessage e) "Failed to update base branch"), [])
    | .ok _ =>
      (.success none, revalidateAfterPRMutation owner repo pullNumber "updateBase")

/-- renamePullRequest: like updatePRBaseBranch but updating the title and
revalidating with the rename action. -/
def renamePullRequest (octokit : Option Unit) (call : RemoteOutcome Unit)
    (owner repo : String) (pullNumber : Nat) (title : String) :
    MutationResult × List CacheEffect :=
  match octokit with
  | none => (.error "Not authenticated", [])
  | some _ =>
    match call with
    | .thrown e => (.error (jsOrElse (getErrorMessage e) "Failed to rename"), [])
    | .ok _ =>
      (.success none, revalidateAfterPRMutation owner repo pullNumber "rename")

/-- The MergeMethod union type. -/
inductive MergeMethod where
  | merge
  | squash
  | rebase
deriving DecidableEq

/-- mergePullRequest: performs the pulls.merge call with the chosen method
and optional commit title and message, revalidates with the merge action on
success, and converts a thrown exception into an error result. -/
def mergePullRequest (octokit : Option Unit) (call : RemoteOutcome Unit)
    (owner repo : String) (pullNumber : Nat) (method : MergeMethod)
    (commitTitle commitMessage : Option String) :
    MutationResult × List CacheEffect :=
  match octokit with
  | none => (.error "Not authenticated", [])
  | some _ =>
    match call with
    | .thrown e => (.error (jsOrElse (getErrorMessage e) "Failed to merge"), [])
    | .ok _ =>
      (.success none, revalidateAfterPRMutation owner repo pullNumber "merge")

/-- closePullRequest: sets the state to closed and revalidates with the
close action on success. -/
def closePullRequest (octokit : Option Unit) (call : RemoteOutcome Unit)
    (owner repo : String) (pullNumber : Nat) :
    MutationResult × List CacheEffect :=
  match octokit with
  | none => (.error "Not authenticated", [])
  | some _ =>
    match call with
    | .thrown e => (.error (jsOrElse (getErrorMessage e) "Failed to close"), [])
    | .ok _ =>
      (.success none, revalidateAfterPRMutation owner repo pullNumber "close")

/-- reopenPullRequest: sets the state to open and revalidates with the
reopen action on success. -/
def reopenPullRequest (octokit : Option Unit) (call : RemoteOutcome Unit)
    (owner repo : String) (pullNumber : Nat) :
    MutationResult × List CacheEffect :=
  match octokit with
  | none => (.error "Not authenticated", [])
  | some _ =>
    match call with
    | .thrown e => (.error (jsOrElse (getErrorMessage e) "Failed to reopen"), [])
    | .ok _ =>
      (.success none, revalidateAfterPRMutation owner repo pullNumber "reopen")

/-- The ReviewEvent union type (APPROVE, REQUEST_CHANGES, COMMENT). -/
inductive ReviewEvent where
  | approve
  | requestChanges
  | comment
deriving DecidableEq

/-- submitPRReview: creates a review with the given event and optional body
and revalidates with the review action on success. -/
def submitPRReview (octokit : Option Unit) (call : RemoteOutcome Unit)
    (owner repo : String) (pullNumber : Nat) (event : ReviewEvent)
    (body : Option String) : MutationResult × List CacheEffect :=
  match octokit with
  | none => (.error "Not authenticated", [])
  | some _ =>
    match call with
    | .thrown e =>
      (.error (jsOrElse (getErrorMessage e) "Failed to submit review"), [])
    | .ok _ =>
      (.success none, revalidateAfterPRMutation owner repo pullNumber "review")

/-- addPRComment: creates an issue comment on the pull request and
revalidates with the comment action on success. -/
def addPRComment (octokit : Option Unit) (call : RemoteOutcome Unit)
    (owner repo : String) (pullNumber : Nat) (body : String) :
    MutationResult × List CacheEffect :=
  match octokit with
  | none => (.error "Not authenticated", [])
  | some _ =>
    match call with
    | .thrown e =>
      (.error (jsOrElse (getErrorMessage e) "Failed to add comment"), [])
    | .ok _ =>
      (.success none, revalidateAfterPRMutation owner repo pullNumber "comment")

/-- A diff side (LEFT or RIGHT). -/
inductive DiffSide where
  | left
  | right
deriving DecidableEq

/-- addPRReviewComment: creates a review comment (the start_line and
start_side request fields are payload details not observed by the model)
and revalidates with the reviewComment action on success. -/
def addPRReviewComment (octokit : Option Unit) (call : RemoteOutcome Unit)
    (owner repo : String) (pullNumber : Nat) (body commitId path : String)
    (line : Nat) (side : DiffSide) (startLine : Option Nat)
    (startSide : Option DiffSide) : MutationResult × List CacheEffect :=
  match octokit with
  | none => (.error "Not authenticated", [])
  | some _ =>
    match call with
    | .thrown e =>
      (.error (jsOrElse (getErrorMessage e) "Failed to add review comment"), [])
    | .ok _ =>
      (.success none,
       revalidateAfterPRMutation owner repo pullNumber "reviewComment")

/-- The data returned by repos.getContent: a directory listing (an array),
a non-file entry, or a file with its decoded content and blob sha. -/
inductive FileContentData where
  | dir
  | nonFile
  | file (content : String) (sha : String)
deriving DecidableEq

/-- The lines a suggestion string contributes: an empty suggestion
contributes no lines (pure deletion), otherwise the suggestion split on
newline. -/
def suggestionLinesOf (suggestion : String) : List String :=
  if suggestion.length > 0 then splitOnNewline suggestion else []

/-- The line splice performed by commitSuggestion on the 1-indexed line
list: the lines strictly before startLine, then the suggestion lines, then
the lines strictly after endLine. -/
def spliceLines (lines : List String) (startLine endLine : Nat)
    (sug : List String) : List String :=
  lines.take (startLine - 1) ++ sug ++ lines.drop endLine

/-- The new file content computed by commitSuggestion: split the content on
newline, splice the suggestion lines over the inclusive 1-indexed range
startLine..endLine, and join with newline. -/
def spliceSuggestion (content : String) (startLine endLine : Nat)
    (suggestion : String) : String :=
  joinLines
    (spliceLines (splitOnNewline content) startLine endLine
      (suggestionLinesOf suggestion))

/-- commitSuggestion: fetches the file, rejects directories and non-file
entries with the "Not a file" error, splices the suggestion into the
decoded content, commits the new content (the update outcome is a function
of the content sent), and revalidates with the suggestion action on
success.  Thrown exceptions from either remote call are caught and become
error results. -/
def commitSuggestion (octokit : Option Unit)
    (getContent : RemoteOutcome FileContentData)
    (update : String → RemoteOutcome Unit)
    (owner repo : String) (pullNumber : Nat) (path branch : String)
    (startLine endLine : Nat) (suggestion : String)
    (commitMessage : Option String) : MutationResult × List CacheEffect :=
  match octokit with
  | none => (.error "Not authenticated", [])
  | some _ =>
    match getContent with
    | .thrown e =>
      (.error (jsOrElse (getErrorMessage e) "Failed to commit suggestion"), [])
    | .ok .dir => (.error "Not a file", [])
    | .ok .nonFile => (.error "Not a file", [])
    | .ok (.file content _sha) =>
      match update (spliceSuggestion content startLine endLine suggestion) with
      | .thrown e =>
        (.error (jsOrElse (getErrorMessage e) "Failed to commit suggestion"), [])
      | .ok _ =>
        (.success none,
         revalidateAfterPRMutation owner repo pullNumber "suggestion")

/-- The data returned by createOrUpdateFileContents: the optional sha of
the new file content object. -/
structure UpdateFileData where
  contentSha : Option String
deriving DecidableEq

/-- commitFileEditOnPR: commits the new content and on success returns the
new sha and revalidates with the fileCommit action. -/
def commitFileEditOnPR (octokit : Option Unit)
    (call : RemoteOutcome UpdateFileData) (owner repo : String)
    (pullNumber : Nat) (path branch content sha commitMessage : String) :
    MutationResult × List CacheEffect :=
  match octokit with
  | none => (.error "Not authenticated", [])
  | some _ =>
    match call with
    | .thrown e =>
      (.error (jsOrElse (getErrorMessage e) "Failed to commit file edit"), [])
    | .ok d =>
      (.success d.contentSha,
       revalidateAfterPRMutation owner repo pullNumber "fileCommit")

/-- The parsed body of a GraphQL mutation response: its list of error
messages (empty when the errors field is absent or empty). -/
structure GraphQLErrorsResponse where
  errors : List String
deriving DecidableEq

/-- resolveReviewThread: requires a token, posts the GraphQL mutation, and
on a response with a non-empty errors list returns the first error message
without revalidating; otherwise revalidates with the resolveThread action.
A thrown exception is caught and becomes an error result. -/
def resolveReviewThread (token : Option String)
    (call : RemoteOutcome GraphQLErrorsResponse) (threadId owner repo : String)
    (pullNumber : Nat) : MutationResult × List CacheEffect :=
  match token with
  | none => (.error "Not authenticated", [])
  | some _ =>
    match call with
    | .thrown e =>
      (.error (jsOrElse (getErrorMessage e) "Failed to resolve thread"), [])
    | .ok json =>
      match json.errors with
      | m :: _ => (.error m, [])
      | [] =>
        (.success none,
         revalidateAfterPRMutation owner repo pullNumber "resolveThread")

/-- unresolveReviewThread: like resolveReviewThread with the unresolve
mutation and the unresolveThread action. -/
def unresolveReviewThread (token : Option String)
    (call : RemoteOutcome GraphQLErrorsResponse) (threadId owner repo : String)
    (pullNumber : Nat) : MutationResult × List CacheEffect :=
  match token with
  | none => (.error "Not authenticated", [])
  | some _ =>
    match call with
    | .thrown e =>
      (.error (jsOrElse (getErrorMessage e) "Failed to unresolve thread"), [])
    | .ok json =>
      match json.errors with
      | m :: _ => (.error m, [])
      | [] =>
        (.success none,
         revalidateAfterPRMutation owner repo pullNumber "unresolveThread")

/-- A resolved file passed to commitMergeConflictResolution. -/
structure ResolvedFile where
  path : String
  content : String
deriving DecidableEq

/-- The authenticated user object used for commit authorship. -/
structure GitUser where
  name : Option String
  email : Option String
  login : Option String
deriving DecidableEq

/-- Outcomes of the sequence of remote calls commitMergeConflictResolution
performs: both branch refs, the head commit, one blob per resolved file (a
function of the file content sent), the new tree, the authenticated user,
the merge commit, and the ref update. -/
structure ConflictRemote where
  headRefSha : RemoteOutcome String
  baseRefSha : RemoteOutcome String
  headCommitTreeSha : RemoteOutcome String
  blobSha : String → RemoteOutcome String
  newTreeSha : RemoteOutcome String
  authenticatedUser : RemoteOutcome (Option GitUser)
  createCommitSha : RemoteOutcome String
  updateRef : RemoteOutcome Unit

/-- Collects a list of outcomes as Promise.all does: the first thrown
exception propagates, otherwise all values are returned. -/
def collectOutcomes {α : Type} : List (RemoteOutcome α) → RemoteOutcome (List α)
  | [] => .ok []
  | o :: rest =>
    o.bind fun v => (collectOutcomes rest).bind fun vs => .ok (v :: vs)

/-- commitMergeConflictResolution: reads both branch heads, the head
commit, creates one blob per resolved file, a tree, a merge commit with the
two heads as parents, and updates the head ref; on success returns the
merge commit sha and revalidates with the conflictResolution action.  A
thrown exception anywhere in the chain is caught and becomes an error
result.  The commit payload (message, author identity and date) is request
data not observed by the model. -/
def commitMergeConflictResolution (octokit : Option Unit)
    (remote : ConflictRemote) (owner repo : String) (pullNumber : Nat)
    (headBranch baseBranch : String) (resolvedFiles : List ResolvedFile)
    (commitMessage : Option String) : MutationResult × List CacheEffect :=
  match octokit with
  | none => (.error "Not authenticated", [])
  | some _ =>
    let chain : RemoteOutcome String :=
      remote.headRefSha.bind fun _headSha =>
      remote.baseRefSha.bind fun _baseSha =>
      remote.headCommitTreeSha.bind fun _treeSha =>
      (collectOutcomes (resolvedFiles.map fun f => remote.blobSha f.content)).bind
        fun _blobShas =>
      remote.newTreeSha.bind fun _newTree =>
      remote.authenticatedUser.bind fun _user =>
      remote.createCommitSha.bind fun mergeSha =>
      remote.updateRef.bind fun _ => .ok mergeSha
    match chain with
    | .thrown e =>
      (.error (jsOrElse (getErrorMessage e) "Failed to commit merge resolution"),
       [])
    | .ok mergeSha =>
      (.success (some mergeSha),
       revalidateAfterPRMutation owner repo pullNumber "conflictResolution")

/-- One pull-request entry in the snapshot, carrying its state string. -/
structure PRStateEntry where
  state : String
deriving DecidableEq

/-- The ContributorSnapshot structure handed to computeContributorScore. -/
structure ContributorSnapshot where
  followers : Nat
  publicRepos : Nat
  accountCreated : String
  commitsInRepo : Nat
  prsInRepo : List PRStateEntry
  reviewsInRepo : Nat
  isContributor : Bool
  contributionCount : Nat
  isOrgMember : Bool
  isOwner : Bool
  topRepoStars : List Nat
deriving DecidableEq

/-- Modelled from the spec: the timestamp parse used for accountCreated.
The spec allows an ISO-8601 string or equivalent; the model uses the
equivalent numeric-string form (epoch seconds), and an empty or
unparseable string parses to none. -/
def parseInstant (s : String) : Option Nat :=
  if s.data ≠ [] ∧ s.data.all Char.isDigit then
    some (s.data.foldl (fun n c => n * 10 + (c.toNat - 48)) 0)
  else none

/-- The documented maximum of the contributor score range. -/
def maxScore : Nat := 100

/-- Saturating follower signal: capped-linear scaling. -/
def followerSignal (followers : Nat) : Nat :=
  min 15 (followers / 100)

/-- Saturating public-repository signal: capped-linear scaling. -/
def repoSignal (publicRepos : Nat) : Nat :=
  min 10 (publicRepos / 10)

/-- Account-age signal: years since creation relative to the injected
reference instant, capped; a missing or unparseable timestamp contributes
zero. -/
def ageSignal (now : Nat) (accountCreated : String) : Nat :=
  match parseInstant accountCreated with
  | none => 0
  | some created => min 10 ((now - created) / 31536000)

/-- In-repo contribution volume signal: capped linear. -/
def volumeSignal (commitsInRepo : Nat) : Nat := min 15 commitsInRepo

/-- Merged-share signal over the authored pull requests: the proportion of
merged entries scaled by a capped volume factor, so one merged PR among one
scores below fifty merged among fifty. -/
def prMixSignal (prs : List PRStateEntry) : Nat :=
  let total := prs.length
  let merged := (prs.filter fun p => p.state == "merged").length
  if total == 0 then 0 else merged * min total 10 / total

/-- Review-activity signal: capped linear. -/
def reviewSignal (reviewsInRepo : Nat) : Nat := min 10 reviewsInRepo

/-- Peak-fame signal: capped-linear in the highest star count among the
top repositories; an empty list contributes zero. -/
def fameSignal (topRepoStars : List Nat) : Nat :=
  min 10 (topRepoStars.foldr max 0 / 1000)

/-- Flat additive status bonuses for the three boolean flags. -/
def statusBonus (isContributor isOrgMember isOwner : Bool) : Nat :=
  (if isContributor then 10 else 0) + (if isOrgMember then 10 else 0) +
    (if isOwner then 10 else 0)

/-- Modelled from the spec: computeContributorScore lives in a
contributor-score library module that is not among the sources.  Following
the spec it is a pure function of the snapshot and an explicitly injected
reference instant, combining saturating normalized sub-signals with flat
additive boolean bonuses and clamping the sum to the documented range
0..maxScore; the concrete constants are chosen to satisfy the spec's
monotonicity, saturation and boundedness properties. -/
def computeContributorScore (now : Nat) (s : ContributorSnapshot) : Nat :=
  min maxScore
    (followerSignal s.followers + repoSignal s.publicRepos +
      ageSignal now s.accountCreated + volumeSignal s.commitsInRepo +
      prMixSignal s.prsInRepo + reviewSignal s.reviewsInRepo +
      fameSignal s.topRepoStars +
      statusBonus s.isContributor s.isOrgMember s.isOwner)

/-- An organization node from the GraphQL response; the login may be
absent (the source reads it with optional chaining). -/
structure GQLOrg where
  login : Option String
  avatarUrl : String
deriving DecidableEq

/-- A top-repository node from the GraphQL response. -/
structure GQLRepoNode where
  name : String
  nameWithOwner : String
  stargazerCount : Option Nat
  primaryLanguage : Option String
deriving DecidableEq

/-- The user object of the GraphQL response; counts read through optional
chaining are Options defaulted to zero at use sites. -/
structure GQLUser where
  login : String
  name : Option String
  avatarUrl : String
  bio : Option String
  company : Option String
  location : Option String
  websiteUrl : Option String
  twitterUsername : Option String
  repositoriesTotalCount : Option Nat
  followersTotalCount : Option Nat
  followingTotalCount : Option Nat
  createdAt : Option String
  typename : String
  topRepositories : List GQLRepoNode
  organizations : List GQLOrg
deriving DecidableEq

/-- The five search issue counts of the GraphQL response, each absent when
the corresponding field is missing. -/
structure SearchCounts where
  openPrs : Option Nat
  mergedPrs : Option Nat
  closedPrs : Option Nat
  issues : Option Nat
  reviews : Option Nat
deriving DecidableEq

/-- The parsed JSON body of the dossier GraphQL response. -/
structure DossierJson where
  user : Option GQLUser
  counts : SearchCounts
deriving DecidableEq

/-- The author record of the dossier. -/
structure DossierAuthor where
  login : String
  name : Option String
  avatar_url : String
  bio : Option String
  company : Option String
  location : Option String
  blog : Option String
  twitter_username : Option String
  public_repos : Nat
  followers : Nat
  following : Nat
  created_at : Option String
  type : String
deriving DecidableEq

/-- An organization record of the dossier. -/
structure DossierOrg where
  login : Option String
  avatar_url : String
deriving DecidableEq

/-- A top-repository record of the dossier. -/
structure DossierRepo where
  name : String
  full_name : String
  stargazers_count : Nat
  language : Option String
deriving DecidableEq

/-- The repoActivity record of the dossier. -/
structure RepoActivity where
  commits : Nat
  prs : Nat
  reviews : Nat
  issues : Nat
deriving DecidableEq

/-- The dossier returned for an author. -/
structure Dossier where
  author : DossierAuthor
  orgs : List DossierOrg
  topRepos : List DossierRepo
  isOrgMember : Bool
  score : Nat
  contributionCount : Nat
  repoActivity : RepoActivity
deriving DecidableEq

/-- The pure assembly at the heart of fetchAuthorDossierGraphQL once the
user object is present: adapts the organization and repository nodes,
derives the flags and counts, builds the ContributorSnapshot passed to
computeContributorScore, and returns that snapshot together with the
dossier.  The now parameter models the ambient process clock at request
time: the source passes no reference instant to the scorer, so the age
normalization inside the scorer depends on this ambient instant rather
than on any argument of the exported operation. -/
def assembleAuthorDossier (owner authorLogin : String) (now : Nat)
    (u : GQLUser) (c : SearchCounts) : ContributorSnapshot × Dossier :=
  let orgs : List DossierOrg := u.organizations.map fun o =>
    { login := o.login, avatar_url := o.avatarUrl }
  let topRepos : List DossierRepo := u.topRepositories.map fun r =>
    { name := r.name
      full_name := r.nameWithOwner
      stargazers_count := r.stargazerCount.getD 0
      language := r.primaryLanguage }
  let isOrgMember := orgs.any fun o =>
    match o.login with
    | some l => lowercase l == lowercase owner
    | none => false
  let openPrs := c.openPrs.getD 0
  let mergedPrs := c.mergedPrs.getD 0
  let closedPrs := c.closedPrs.getD 0
  let totalPrs := openPrs + mergedPrs + closedPrs
  let issueCount := c.issues.getD 0
  let reviewCount := c.reviews.getD 0
  let prsInRepo : List PRStateEntry :=
    List.replicate mergedPrs { state := "merged" } ++
      List.replicate closedPrs { state := "closed" } ++
      List.replicate openPrs { state := "open" }
  let contributionCount := mergedPrs + reviewCount
  let isContributor := decide (contributionCount > 0)
  let snapshot : ContributorSnapshot :=
    { followers := u.followersTotalCount.getD 0
      publicRepos := u.repositoriesTotalCount.getD 0
      accountCreated := u.createdAt.getD ""
      commitsInRepo := mergedPrs
      prsInRepo := prsInRepo
      reviewsInRepo := reviewCount
      isContributor := isContributor
      contributionCount := contributionCount
      isOrgMember := isOrgMember
      isOwner := lowercase authorLogin == lowercase owner
      topRepoStars := topRepos.map fun r => r.stargazers_count }
  let score := computeContributorScore now snapshot
  (snapshot,
   { author :=
       { login := u.login
         name := u.name
         avatar_url := u.avatarUrl
         bio := u.bio
         company := u.company
         location := u.location
         blog := u.websiteUrl
         twitter_username := u.twitterUsername
         public_repos := u.repositoriesTotalCount.getD 0
         followers := u.followersTotalCount.getD 0
         following := u.followingTotalCount.getD 0
         created_at := u.createdAt
         type := if u.typename == "Bot" then "Bot" else "User" }
     orgs := orgs
     topRepos := topRepos.take 3
     isOrgMember := isOrgMember
     score := score
     contributionCount := contributionCount
     repoActivity :=
       { commits := mergedPrs
         prs := totalPrs
         reviews := reviewCount
         issues := issueCount } })

/-- fetchAuthorDossierGraphQL: yields none on a non-ok HTTP response or a
missing user object, otherwise assembles the dossier.  The fetch itself can
throw; that outcome is handled by the caller fetchAuthorDossier, which is
the only caller and wraps this function in its try block. -/
def fetchAuthorDossierGraphQL (owner authorLogin : String) (now : Nat)
    (responseOk : Bool) (json : DossierJson) : Option Dossier :=
  if !responseOk then none
  else
    match json.user with
    | none => none
    | some u => some (assembleAuthorDossier owner authorLogin now u json.counts).2

/-- fetchAuthorDossier: yields none without touching the remote API when no
token is available, catches any thrown exception as none, and otherwise
delegates to fetchAuthorDossierGraphQL on the fetched response. -/
def fetchAuthorDossier (token : Option String)
    (call : RemoteOutcome (Bool × DossierJson))
    (owner repo authorLogin : String) (now : Nat) : Option Dossier :=
  match token with
  | none => none
  | some _ =>
    match call with
    | .thrown _ => none
    | .ok (responseOk, json) =>
      fetchAuthorDossierGraphQL owner authorLogin now responseOk json

/-- C1: no exported operation propagates a remote fault to its caller: a
thrown remote call (and, for the thread mutations, a GraphQL errors list)
yields an error-object result for every mutation operation, the empty list
for fetchBranchNames, and none for fetchAuthorDossier. -/
theorem claim_C1_no_fault_escape :
    (∀ e owner repo n base,
      (updatePRBaseBranch (some ()) (.thrown e) owner repo n base).1.isErr = true) ∧
    (∀ e owner repo n title,
      (renamePullRequest (some ()) (.thrown e) owner repo n title).1.isErr = true) ∧
    (∀ e owner repo n method ct cm,
      (mergePullRequest (some ()) (.thrown e) owner repo n method ct cm).1.isErr = true) ∧
    (∀ e owner repo n,
      (closePullRequest (some ()) (.thrown e) owner repo n).1.isErr = true) ∧
    (∀ e owner repo n,
      (reopenPullRequest (some ()) (.thrown e) owner repo n).1.isErr = true) ∧
    (∀ e owner repo n event body,
      (submitPRReview (some ()) (.thrown e) owner repo n event body).1.isErr = true) ∧
    (∀ e owner repo n body,
      (addPRComment (some ()) (.thrown e) owner repo n body).1.isErr = true) ∧
    (∀ e owner repo n body cid path line side sl ss,
      (addPRReviewComment (some ()) (.thrown e) owner repo n body cid path line side sl
        ss).1.isErr = true) ∧
    (∀ e update owner repo n path branch sl el sug cm,
      (commitSuggestion (some ()) (.thrown e) update owner repo n path branch sl el sug
        cm).1.isErr = true) ∧
    (∀ e content sha owner repo n path branch sl el sug cm,
      (commitSuggestion (some ()) (.ok (.file content sha)) (fun _ => .thrown e) owner
        repo n path branch sl el sug cm).1.isErr = true) ∧
    (∀ e owner repo n path branch content sha cm,
      (commitFileEditOnPR (some ()) (.thrown e) owner repo n path branch content sha
        cm).1.isErr = true) ∧
    (∀ e tid owner repo n,
      (resolveReviewThread (some "t") (.thrown e) tid owner repo n).1.isErr = true) ∧
    (∀ m rest tid owner repo n,
      (resolveReviewThread (some "t") (.ok ⟨m :: rest⟩) tid owner repo n).1.isErr = true) ∧
    (∀ e tid owner repo n,
      (unresolveReviewThread (some "t") (.thrown e) tid owner repo n).1.isErr = true) ∧
    (∀ m rest tid owner repo n,
      (unresolveReviewThread (some "t") (.ok ⟨m :: rest⟩) tid owner repo n).1.isErr =
        true) ∧
    (∀ (e : String) (remote : ConflictRemote) owner repo n hb bb files cm,
      (commitMergeConflictResolution (some ())
        { remote with headRefSha := RemoteOutcome.thrown e } owner repo n hb bb files
        cm).1.isErr = true) ∧
    (∀ e owner repo, fetchBranchNames (.thrown e) owner repo = []) ∧
    (∀ owner repo login now,
      fetchAuthorDossier (some "t") (.thrown "boom") owner repo login now = none) := by
  refine ⟨?_, ?_, ?_, ?_, ?_, ?_, ?_, ?_, ?_, ?_, ?_, ?_, ?_, ?_, ?_, ?_, ?_, ?_⟩ <;>
    (intros; rfl)

/-- C2: after every successful PR mutation the cache-invalidation step is
exactly: invalidatePullRequestCache first, then revalidatePath according
to the action's PR_ACTION_SCOPES entry — merge, close and reopen
revalidate detail, list and layout; rename, updateBase and
conflictResolution revalidate detail and list; the remaining actions
revalidate only the detail page; an action absent from the table defaults
to the detail scope alone — and each operation's success trace is the
trace of its own action. -/
theorem claim_C2_revalidation_scopes :
    (∀ owner repo n action, PR_ACTION_SCOPES action = none →
      revalidateAfterPRMutation owner repo n action =
        [CacheEffect.invalidatePullRequestCache owner repo n,
         CacheEffect.revalidatePath s!"/repos/{owner}/{repo}/pulls/{n}"]) ∧
    (∀ owner repo n, ∀ action ∈ ["merge", "close", "reopen"],
      revalidateAfterPRMutation owner repo n action =
        [CacheEffect.invalidatePullRequestCache owner repo n,
         CacheEffect.revalidatePath s!"/repos/{owner}/{repo}/pulls/{n}",
         CacheEffect.revalidatePath s!"/repos/{owner}/{repo}/pulls",
         CacheEffect.revalidatePathLayout s!"/repos/{owner}/{repo}"]) ∧
    (∀ owner repo n, ∀ action ∈ ["rename", "updateBase", "conflictResolution"],
      revalidateAfterPRMutation owner repo n action =
        [CacheEffect.invalidatePullRequestCache owner repo n,
         CacheEffect.revalidatePath s!"/repos/{owner}/{repo}/pulls/{n}",
         CacheEffect.revalidatePath s!"/repos/{owner}/{repo}/pulls"]) ∧
    (∀ owner repo n, ∀ action ∈ ["review", "comment", "reviewComment", "suggestion",
        "fileCommit", "resolveThread", "unresolveThread"],
      revalidateAfterPRMutation owner repo n action =
        [CacheEffect.invalidatePullRequestCache owner repo n,
         CacheEffect.revalidatePath s!"/repos/{owner}/{repo}/pulls/{n}"]) ∧
    (∀ owner repo n base,
      (updatePRBaseBranch (some ()) (.ok ()) owner repo n base).2 =
        revalidateAfterPRMutation owner repo n "updateBase") ∧
    (∀ owner repo n title,
      (renamePullRequest (some ()) (.ok ()) owner repo n title).2 =
        revalidateAfterPRMutation owner repo n "rename") ∧
    (∀ owner repo n method ct cm,
      (mergePullRequest (some ()) (.ok ()) owner repo n method ct cm).2 =
        revalidateAfterPRMutation owner repo n "merge") ∧
    (∀ owner repo n,
      (closePullRequest (some ()) (.ok ()) owner repo n).2 =
        revalidateAfterPRMutation owner repo n "close") ∧
    (∀ owner repo n,
      (reopenPullRequest (some ()) (.ok ()) owner repo n).2 =
        revalidateAfterPRMutation owner repo n "reopen") ∧
    (∀ owner repo n event body,
      (submitPRReview (some ()) (.ok ()) owner repo n event body).2 =
        revalidateAfterPRMutation owner repo n "review") ∧
    (∀ owner repo n body,
      (addPRComment (some ()) (.ok ()) owner repo n body).2 =
        revalidateAfterPRMutation owner repo n "comment") ∧
    (∀ owner repo n body cid path line side sl ss,
      (addPRReviewComment (some ()) (.ok ()) owner repo n body cid path line side sl
        ss).2 = revalidateAfterPRMutation owner repo n "reviewComment") ∧
    (∀ content sha owner repo n path branch sl el sug cm,
      (commitSuggestion (some ()) (.ok (.file content sha)) (fun _ => .ok ()) owner repo
        n path branch sl el sug cm).2 =
        revalidateAfterPRMutation owner repo n "suggestion") ∧
    (∀ d owner repo n path branch content sha cm,
      (commitFileEditOnPR (some ()) (.ok d) owner repo n path branch content sha cm).2 =
        revalidateAfterPRMutation owner repo n "fileCommit") ∧
    (∀ tid owner repo n,
      (resolveReviewThread (some "t") (.ok ⟨[]⟩) tid owner repo n).2 =
        revalidateAfterPRMutation owner repo n "resolveThread") ∧
    (∀ tid owner repo n,
      (unresolveReviewThread (some "t") (.ok ⟨[]⟩) tid owner repo n).2 =
        revalidateAfterPRMutation owner repo n "unresolveThread") ∧
    (∀ (sha1 sha2 sha3 sha4 sha5 : String) (user : Option GitUser)
        owner repo n hb bb cm,
      (commitMergeConflictResolution (some ())
        { headRefSha := .ok sha1, baseRefSha := .ok sha2, headCommitTreeSha := .ok sha3,
          blobSha := fun _ => .ok sha4, newTreeSha := .ok sha4,
          authenticatedUser := .ok user, createCommitSha := .ok sha5,
          updateRef := .ok () } owner repo n hb bb [] cm).2 =
        revalidateAfterPRMutation owner repo n "conflictResolution") := by
  refine ⟨?_, ?_, ?_, ?_, ?_, ?_, ?_, ?_, ?_, ?_, ?_, ?_, ?_, ?_, ?_, ?_, ?_⟩
  · intro owner repo n action h
    unfold revalidateAfterPRMutation
    rw [h]
    rfl
  · intro owner repo n action h
    fin_cases h <;> rfl
  · intro owner repo n action h
    fin_cases h <;> rfl
  · intro owner repo n action h
    fin_cases h <;> rfl
  all_goals (intros; rfl)

/-- C2 witness: the approve action is absent from PR_ACTION_SCOPES, and the
claim instantiated there yields the detail-only default trace. -/
theorem claim_C2_witness :
    PR_ACTION_SCOPES "approve" = none ∧
    revalidateAfterPRMutation "o" "r" 1 "approve" =
      [CacheEffect.invalidatePullRequestCache "o" "r" 1,
       CacheEffect.revalidatePath "/repos/o/r/pulls/1"] :=
  ⟨rfl, by
    have h := claim_C2_revalidation_scopes.1 "o" "r" 1 "approve" rfl
    simpa using h⟩

/-- C3: on every error path — authentication failure, a thrown remote
error, or a GraphQL errors array in the thread mutations — the operation
returns its error result with an empty cache-effect trace: revalidation
happens only after the remote call has succeeded. -/
theorem claim_C3_no_revalidation_on_error :
    (∀ call owner repo n base,
      updatePRBaseBranch none call owner repo n base =
        (.error "Not authenticated", [])) ∧
    (∀ e owner repo n base,
      updatePRBaseBranch (some ()) (.thrown e) owner repo n base =
        (.error (jsOrElse (getErrorMessage e) "Failed to update base branch"), [])) ∧
    (∀ call owner repo n title,
      renamePullRequest none call owner repo n title =
        (.error "Not authenticated", [])) ∧
    (∀ e owner repo n title,
      renamePullRequest (some ()) (.thrown e) owner repo n title =
        (.error (jsOrElse (getErrorMessage e) "Failed to rename"), [])) ∧
    (∀ call owner repo n method ct cm,
      mergePullRequest none call owner repo n method ct cm =
        (.error "Not authenticated", [])) ∧
    (∀ e owner repo n method ct cm,
      mergePullRequest (some ()) (.thrown e) owner repo n method ct cm =
        (.error (jsOrElse (getErrorMessage e) "Failed to merge"), [])) ∧
    (∀ call owner repo n,
      closePullRequest none call owner repo n = (.error "Not authenticated", [])) ∧
    (∀ e owner repo n,
      closePullRequest (some ()) (.thrown e) owner repo n =
        (.error (jsOrElse (getErrorMessage e) "Failed to close"), [])) ∧
    (∀ call owner repo n,
      reopenPullRequest none call owner repo n = (.error "Not authenticated", [])) ∧
    (∀ e owner repo n,
      reopenPullRequest (some ()) (.thrown e) owner repo n =
        (.error (jsOrElse (getErrorMessage e) "Failed to reopen"), [])) ∧
    (∀ call owner repo n event body,
      submitPRReview none call owner repo n event body =
        (.error "Not authenticated", [])) ∧
    (∀ e owner repo n event body,
      submitPRReview (some ()) (.thrown e) owner repo n event body =
        (.error (jsOrElse (getErrorMessage e) "Failed to submit review"), [])) ∧
    (∀ call owner repo n body,
      addPRComment none call owner repo n body = (.error "Not authenticated", [])) ∧
    (∀ e owner repo n body,
      addPRComment (some ()) (.thrown e) owner repo n body =
        (.error (jsOrElse (getErrorMessage e) "Failed to add comment"), [])) ∧
    (∀ call owner repo n body cid path line side sl ss,
      addPRReviewComment none call owner repo n body cid path line side sl ss =
        (.error "Not authenticated", [])) ∧
    (∀ e owner repo n body cid path line side sl ss,
      addPRReviewComment (some ()) (.thrown e) owner repo n body cid path line side sl
        ss = (.error (jsOrElse (getErrorMessage e) "Failed to add review comment"),
          [])) ∧
    (∀ getContent update owner repo n path branch sl el sug cm,
      commitSuggestion none getContent update owner repo n path branch sl el sug cm =
        (.error "Not authenticated", [])) ∧
    (∀ e update owner repo n path branch sl el sug cm,
      commitSuggestion (some ()) (.thrown e) update owner repo n path branch sl el sug
        cm = (.error (jsOrElse (getErrorMessage e) "Failed to commit suggestion"),
          [])) ∧
    (∀ update owner repo n path branch sl el sug cm,
      commitSuggestion (some ()) (.ok .dir) update owner repo n path branch sl el sug
        cm = (.error "Not a file", [])) ∧
    (∀ update owner repo n path branch sl el sug cm,
      commitSuggestion (some ()) (.ok .nonFile) update owner repo n path branch sl el
        sug cm = (.error "Not a file", [])) ∧
    (∀ e content sha owner repo n path branch sl el sug cm,
      commitSuggestion (some ()) (.ok (.file content sha)) (fun _ => .thrown e) owner
        repo n path branch sl el sug cm =
        (.error (jsOrElse (getErrorMessage e) "Failed to commit suggestion"), [])) ∧
    (∀ call owner repo n path branch content sha cm,
      commitFileEditOnPR none call owner repo n path branch content sha cm =
        (.error "Not authenticated", [])) ∧
    (∀ e owner repo n path branch content sha cm,
      commitFileEditOnPR (some ()) (.thrown e) owner repo n path branch content sha cm =
        (.error (jsOrElse (getErrorMessage e) "Failed to commit file edit"), [])) ∧
    (∀ call tid owner repo n,
      resolveReviewThread none call tid owner repo n =
        (.error "Not authenticated", [])) ∧
    (∀ e tid owner repo n,
      resolveReviewThread (some "t") (.thrown e) tid owner repo n =
        (.error (jsOrElse (getErrorMessage e) "Failed to resolve thread"), [])) ∧
    (∀ m rest tid owner repo n,
      resolveReviewThread (some "t") (.ok ⟨m :: rest⟩) tid owner repo n =
        (.error m, [])) ∧
    (∀ call tid owner repo n,
      unresolveReviewThread none call tid owner repo n =
        (.error "Not authenticated", [])) ∧
    (∀ e tid owner repo n,
      unresolveReviewThread (some "t") (.thrown e) tid owner repo n =
        (.error (jsOrElse (getErrorMessage e) "Failed to unresolve thread"), [])) ∧
    (∀ m rest tid owner repo n,
      unresolveReviewThread (some "t") (.ok ⟨m :: rest⟩) tid owner repo n =
        (.error m, [])) ∧
    (∀ (remote : ConflictRemote) owner repo n hb bb files cm,
      commitMergeConflictResolution none remote owner repo n hb bb files cm =
        (.error "Not authenticated", [])) ∧
    (∀ (e : String) (remote : ConflictRemote) owner repo n hb bb files cm,
      commitMergeConflictResolution (some ())
        { remote with headRefSha := RemoteOutcome.thrown e } owner repo n hb bb files
        cm =
        (.error (jsOrElse (getErrorMessage e) "Failed to commit merge resolution"),
         [])) := by
  refine ⟨?_, ?_, ?_, ?_, ?_, ?_, ?_, ?_, ?_, ?_, ?_, ?_, ?_, ?_, ?_, ?_, ?_, ?_, ?_,
    ?_, ?_, ?_, ?_, ?_, ?_, ?_, ?_, ?_, ?_, ?_, ?_⟩ <;> (intros; rfl)

/-- C8: when the authentication provider yields no client or token, every
mutation operation returns the Not authenticated error with an empty
cache-effect trace whatever the remote API would have done, and
fetchAuthorDossier returns none. -/
theorem claim_C8_not_authenticated :
    (∀ call owner repo n base,
      updatePRBaseBranch none call owner repo n base =
        (.error "Not authenticated", [])) ∧
    (∀ call owner repo n title,
      renamePullRequest none call owner repo n title =
        (.error "Not authenticated", [])) ∧
    (∀ call owner repo n method ct cm,
      mergePullRequest none call owner repo n method ct cm =
        (.error "Not authenticated", [])) ∧
    (∀ call owner repo n,
      closePullRequest none call owner repo n = (.error "Not authenticated", [])) ∧
    (∀ call owner repo n,
      reopenPullRequest none call owner repo n = (.error "Not authenticated", [])) ∧
    (∀ call owner repo n event body,
      submitPRReview none call owner repo n event body =
        (.error "Not authenticated", [])) ∧
    (∀ call owner repo n body,
      addPRComment none call owner repo n body = (.error "Not authenticated", [])) ∧
    (∀ call owner repo n body cid path line side sl ss,
      addPRReviewComment none call owner repo n body cid path line side sl ss =
        (.error "Not authenticated", [])) ∧
    (∀ getContent update owner repo n path branch sl el sug cm,
      commitSuggestion none getContent update owner repo n path branch sl el sug cm =
        (.error "Not authenticated", [])) ∧
    (∀ call owner repo n path branch content sha cm,
      commitFileEditOnPR none call owner repo n path branch content sha cm =
        (.error "Not authenticated", [])) ∧
    (∀ call tid owner repo n,
      resolveReviewThread none call tid owner repo n =
        (.error "Not authenticated", [])) ∧
    (∀ call tid owner repo n,
      unresolveReviewThread none call tid owner repo n =
        (.error "Not authenticated", [])) ∧
    (∀ (remote : ConflictRemote) owner repo n hb bb files cm,
      commitMergeConflictResolution none remote owner repo n hb bb files cm =
        (.error "Not authenticated", [])) ∧
    (∀ call owner repo login now,
      fetchAuthorDossier none call owner repo login now = none) := by
  refine ⟨?_, ?_, ?_, ?_, ?_, ?_, ?_, ?_, ?_, ?_, ?_, ?_, ?_, ?_⟩ <;> (intros; rfl)


/-- C9: the splice commitSuggestion performs on the 1-indexed line list,
for 1 ≤ startLine ≤ endLine ≤ line count: the lines strictly before
startLine are preserved at their positions, the range is replaced by the
suggestion lines, the lines strictly after endLine follow unchanged, an
empty suggestion deletes the range outright, and the resulting line count
is the original count minus the range size plus the suggestion's line
count. -/
theorem claim_C9_suggestion_splice (lines : List String)
    (startLine endLine : Nat) (suggestion : String)
    (h1 : 1 ≤ startLine) (h2 : startLine ≤ endLine)
    (h3 : endLine ≤ lines.length) :
    (∀ i, i < startLine - 1 →
      (spliceLines lines startLine endLine (suggestionLinesOf suggestion))[i]? =
        lines[i]?) ∧
    (∀ k, k < (suggestionLinesOf suggestion).length →
      (spliceLines lines startLine endLine
          (suggestionLinesOf suggestion))[startLine - 1 + k]? =
        (suggestionLinesOf suggestion)[k]?) ∧
    (∀ j,
      (spliceLines lines startLine endLine
          (suggestionLinesOf suggestion))[startLine - 1 +
            (suggestionLinesOf suggestion).length + j]? =
        lines[endLine + j]?) ∧
    (suggestion = "" →
      spliceLines lines startLine endLine (suggestionLinesOf suggestion) =
        lines.take (startLine - 1) ++ lines.drop endLine) ∧
    (spliceLines lines startLine endLine (suggestionLinesOf suggestion)).length =
      lines.length - (endLine - startLine + 1) +
        (suggestionLinesOf suggestion).length := by
  have hs1 : startLine - 1 ≤ lines.length := by omega
  have hlen : (lines.take (startLine - 1)).length = startLine - 1 := by
    rw [List.length_take]
    omega
  refine ⟨?_, ?_, ?_, ?_, ?_⟩
  · intro i hi
    have h5 : i < (lines.take (startLine - 1) ++ suggestionLinesOf suggestion).length := by
      rw [List.length_append, hlen]
      omega
    have h4 : i < (lines.take (startLine - 1)).length := by
      rw [hlen]
      omega
    unfold spliceLines
    rw [List.getElem?_append_left h5, List.getElem?_append_left h4,
      List.getElem?_take_of_lt hi]
  · intro k hk
    have h6 : startLine - 1 + k <
        (lines.take (startLine - 1) ++ suggestionLinesOf suggestion).length := by
      rw [List.length_append, hlen]
      omega
    have h5 : (lines.take (startLine - 1)).length ≤ startLine - 1 + k := by
      rw [hlen]
      omega
    unfold spliceLines
    rw [List.getElem?_append_left h6, List.getElem?_append_right h5, hlen]
    congr 1
    omega
  · intro j
    have h5 : (lines.take (startLine - 1) ++ suggestionLinesOf suggestion).length ≤
        startLine - 1 + (suggestionLinesOf suggestion).length + j := by
      rw [List.length_append, hlen]
      omega
    unfold spliceLines
    rw [List.getElem?_append_right h5, List.getElem?_drop, List.length_append, hlen]
    congr 1
    omega
  · intro h
    subst h
    have h0 : suggestionLinesOf "" = [] := rfl
    rw [h0]
    unfold spliceLines
    simp
  · unfold spliceLines
    rw [List.length_append, List.length_append, hlen, List.length_drop]
    omega

/-- C9 witness: the splice at a concrete file of four lines, replacing the
range 2..3 with a two-line suggestion, satisfies the hypotheses and the
line-count conclusion. -/
theorem claim_C9_witness :
    (1 ≤ 2 ∧ 2 ≤ 3 ∧ 3 ≤ (["a", "b", "c", "d"] : List String).length) ∧
    (spliceLines ["a", "b", "c", "d"] 2 3 (suggestionLinesOf "x\ny")).length =
      (["a", "b", "c", "d"] : List String).length - (3 - 2 + 1) +
        (suggestionLinesOf "x\ny").length :=
  ⟨⟨by decide, by decide, by decide⟩,
   (claim_C9_suggestion_splice ["a", "b", "c", "d"] 2 3 "x\ny" (by decide)
       (by decide) (by decide)).2.2.2.2⟩

/-- A concrete GraphQL user response used to exhibit the ambient-time
dependence of the dossier assembly. -/
def sampleDossierUser : GQLUser :=
  { login := "alice"
    name := none
    avatarUrl := ""
    bio := none
    company := none
    location := none
    websiteUrl := none
    twitterUsername := none
    repositoriesTotalCount := none
    followersTotalCount := none
    followingTotalCount := none
    createdAt := some "0"
    typename := "User"
    topRepositories := []
    organizations := [] }

/-- Concrete search counts with every field absent. -/
def sampleSearchCounts : SearchCounts :=
  { openPrs := none, mergedPrs := none, closedPrs := none, issues := none,
    reviews := none }

/-- C4 counterexample: the dossier call site does not pass a reference
instant — the exported operation's arguments contain no such parameter —
so the score assembled from identical remote data differs between two
ambient instants: the age normalization inside the scorer depends on the
ambient clock, which callers cannot inject. -/
theorem claim_C4_counterexample :
    (assembleAuthorDossier "repoowner" "alice" 0 sampleDossierUser
        sampleSearchCounts).2.score ≠
      (assembleAuthorDossier "repoowner" "alice" 315360000 sampleDossierUser
        sampleSearchCounts).2.score := by
  decide

/-- C4 amended: computeContributorScore itself is deterministic — identical
snapshot and identical injected reference instant give identical output —
but the dossier call site passes only the snapshot, so the reference
instant is ambient rather than caller-supplied. -/
theorem claim_C4_amended (now1 now2 : Nat) (s1 s2 : ContributorSnapshot)
    (hn : now1 = now2) (hs : s1 = s2) :
    computeContributorScore now1 s1 = computeContributorScore now2 s2 := by
  rw [hn, hs]

/-- C4 witness: the determinism theorem applied at a concrete instant and
snapshot. -/
theorem claim_C4_witness :
    ((0 : Nat) = 0 ∧
      (assembleAuthorDossier "repoowner" "alice" 0 sampleDossierUser
          sampleSearchCounts).1 =
        (assembleAuthorDossier "repoowner" "alice" 0 sampleDossierUser
          sampleSearchCounts).1) ∧
    computeContributorScore 0
        (assembleAuthorDossier "repoowner" "alice" 0 sampleDossierUser
          sampleSearchCounts).1 =
      computeContributorScore 0
        (assembleAuthorDossier "repoowner" "alice" 0 sampleDossierUser
          sampleSearchCounts).1 :=
  ⟨⟨rfl, rfl⟩,
   claim_C4_amended 0 0
     (assembleAuthorDossier "repoowner" "alice" 0 sampleDossierUser
       sampleSearchCounts).1
     (assembleAuthorDossier "repoowner" "alice" 0 sampleDossierUser
       sampleSearchCounts).1 rfl rfl⟩

/-- C5: for every snapshot — whatever the size of followers, publicRepos
or topRepoStars entries — and every reference instant, the contributor
score lies in the documented range: never negative and never above
maxScore, because the sum of signals is clamped. -/
theorem claim_C5_score_range (now : Nat) (s : ContributorSnapshot) :
    0 ≤ computeContributorScore now s ∧ computeContributorScore now s ≤ maxScore :=
  ⟨Nat.zero_le _, Nat.min_le_left _ _⟩

/-- C6: in the snapshot assembled for the dossier, contributionCount is
the merged-PR count plus the review count from the queries (each
defaulting to zero when absent), and isContributor holds exactly when that
sum is positive. -/
theorem claim_C6_contribution_count (owner login : String) (now : Nat)
    (u : GQLUser) (c : SearchCounts) :
    (assembleAuthorDossier owner login now u c).1.contributionCount =
        c.mergedPrs.getD 0 + c.reviews.getD 0 ∧
    ((assembleAuthorDossier owner login now u c).1.isContributor = true ↔
        0 < c.mergedPrs.getD 0 + c.reviews.getD 0) := by
  refine ⟨rfl, ?_⟩
  simp [assembleAuthorDossier]

/-- C7: in the snapshot assembled for the dossier, isOwner holds exactly
when the author login equals the repository owner login case-insensitively,
and isOrgMember holds exactly when some organization of the user has a
login equal to the owner login case-insensitively. -/
theorem claim_C7_owner_org_flags (owner login : String) (now : Nat)
    (u : GQLUser) (c : SearchCounts) :
    ((assembleAuthorDossier owner login now u c).1.isOwner = true ↔
        lowercase login = lowercase owner) ∧
    ((assembleAuthorDossier owner login now u c).1.isOrgMember = true ↔
        ∃ o ∈ u.organizations, ∃ l, o.login = some l ∧
          lowercase l = lowercase owner) := by
  constructor
  · simp [assembleAuthorDossier]
  · simp [assembleAuthorDossier, List.any_map, List.any_eq_true]
    constructor
    · rintro ⟨o, ho, h⟩
      cases hl : o.login with
      | none => rw [hl] at h; simp at h
      | some l =>
        rw [hl] at h
        exact ⟨o, ho, l, hl, by simpa using h⟩
    · rintro ⟨o, ho, l, hl, h⟩
      refine ⟨o, ho, ?_⟩
      rw [hl]
      simpa using h

/-- C10: the prsInRepo sequence passed to the scorer is the merged entries
first, then the closed entries, then the open entries, with each count
defaulting to zero when absent; its length is the three-way sum;
commitsInRepo is the merged count; and the dossier's repoActivity.prs
equals the same sum. -/
theorem claim_C10_prs_composition (owner login : String) (now : Nat)
    (u : GQLUser) (c : SearchCounts) :
    (assembleAuthorDossier owner login now u c).1.prsInRepo =
        List.replicate (c.mergedPrs.getD 0) ({ state := "merged" } : PRStateEntry) ++
          List.replicate (c.closedPrs.getD 0) ({ state := "closed" } : PRStateEntry) ++
          List.replicate (c.openPrs.getD 0) ({ state := "open" } : PRStateEntry) ∧
    (assembleAuthorDossier owner login now u c).1.prsInRepo.length =
        c.mergedPrs.getD 0 + c.closedPrs.getD 0 + c.openPrs.getD 0 ∧
    (assembleAuthorDossier owner login now u c).1.commitsInRepo =
        c.mergedPrs.getD 0 ∧
    (assembleAuthorDossier owner login now u c).2.repoActivity.prs =
        c.mergedPrs.getD 0 + c.closedPrs.getD 0 + c.openPrs.getD 0 := by
  refine ⟨rfl, ?_, rfl, ?_⟩
  · simp [assembleAuthorDossier]
    omega
  · simp [assembleAuthorDossier]
    omega
